import Mathlib

/-!
Verification of the goal-status evaluation and data-normalization core of the
painel-rag dashboard (src/index.tsx).

The embedding models the dynamically-typed JavaScript values flowing through
`parseValue`, `getStatus`, `getSimplifiedStatus`, the chart counting loop of
`renderAllYearCharts`, and the normalizer `initializeData`.  JavaScript numbers
are modelled as exact rationals (the spec describes the comparisons over real
numbers); `NaN` outcomes are modelled as `Option.none`.  JavaScript string
case-conversion is modelled over the ASCII letters, which covers every token
the source compares against ("na", "s/n", "andamento", "apurando",
"mensurado", "MENOR", "maior", ...).
-/

namespace PanelRag

/-- A JavaScript value of type `string | number | undefined | null`, the type
accepted by `parseValue` and `getStatus` in src/index.tsx. -/
inductive JSVal : Type where
  | undef : JSVal
  | null : JSVal
  | str : String → JSVal
  | num : ℚ → JSVal
deriving DecidableEq, Repr

/-- The apostrophe character (codepoint 39), stripped by `parseValue`. -/
def apos : Char := Char.ofNat 39

/-- ASCII whitespace recognised by the model of `String.prototype.trim` and of
the leading-whitespace skip of `parseFloat`. -/
def isWS (c : Char) : Bool := c = ' ' || c = '\t' || c = '\n' || c = '\r'

/-- ASCII model of `String.prototype.toLowerCase`, character by character:
the letters `A`–`Z` (codepoints 65–90) map 32 codepoints up; everything else
is unchanged. -/
def lowChar (c : Char) : Char :=
  if 65 ≤ c.toNat ∧ c.toNat ≤ 90 then Char.ofNat (c.toNat + 32) else c

/-- ASCII model of `String.prototype.toUpperCase`, character by character:
the letters `a`–`z` (codepoints 97–122) map 32 codepoints down; everything
else is unchanged. -/
def upChar (c : Char) : Char :=
  if 97 ≤ c.toNat ∧ c.toNat ≤ 122 then Char.ofNat (c.toNat - 32) else c

/-- Model of `s.toLowerCase()`. -/
def jsLower (s : String) : String := ⟨s.data.map lowChar⟩

/-- Model of `s.toUpperCase()`. -/
def jsUpper (s : String) : String := ⟨s.data.map upChar⟩

/-- Trim whitespace from both ends of a character list. -/
def trimChars (l : List Char) : List Char :=
  ((l.dropWhile isWS).reverse.dropWhile isWS).reverse

/-- Model of `s.trim()`. -/
def jsTrim (s : String) : String := ⟨trimChars s.data⟩

/-- `startsSeq pat l` is true when `pat` is a prefix of `l`. -/
def startsSeq : List Char → List Char → Bool
  | [], _ => true
  | _ :: _, [] => false
  | a :: as, b :: bs => a = b && startsSeq as bs

/-- `containsSeq pat l` is true when `pat` occurs contiguously inside `l`. -/
def containsSeq (pat : List Char) : List Char → Bool
  | [] => pat.isEmpty
  | b :: bs => startsSeq pat (b :: bs) || containsSeq pat bs

/-- Model of `s.includes(pat)`. -/
def strIncl (s pat : String) : Bool := containsSeq pat.data s.data

/-- Remove the first occurrence of character `pat`; model of
`s.replace(pat, '')` with a single-character string pattern (JavaScript
`replace` with a string pattern rewrites only the first occurrence). -/
def remFirst (pat : Char) : List Char → List Char
  | [] => []
  | c :: t => if c = pat then t else c :: remFirst pat t

/-- Replace the first occurrence of character `pat` by `rep`; model of
`s.replace(pat, rep)` with single-character strings. -/
def replFirst (pat rep : Char) : List Char → List Char
  | [] => []
  | c :: t => if c = pat then rep :: t else c :: replFirst pat rep t

/-- Value of a digit string, most significant digit first. -/
def digitsToNat (l : List Char) : ℕ :=
  l.foldl (fun a c => 10 * a + (c.toNat - 48)) 0

/-- Model of JavaScript `parseFloat`: skip leading whitespace, then parse the
longest prefix of the form `[+-] digits [. digits] [eE [+-] digits]`; return
`none` (JavaScript `NaN`) when no digit is found before the exponent part.
Non-finite inputs ("Infinity") are outside the modelled value domain. -/
def parseFloatQ (s : String) : Option ℚ :=
  let l := s.data.dropWhile isWS
  let sl : ℚ × List Char :=
    match l with
    | '+' :: t => (1, t)
    | '-' :: t => (-1, t)
    | t => (1, t)
  let ip := sl.2.takeWhile Char.isDigit
  let r1 := sl.2.dropWhile Char.isDigit
  let fr : List Char × List Char :=
    match r1 with
    | '.' :: t => (t.takeWhile Char.isDigit, t.dropWhile Char.isDigit)
    | _ => ([], r1)
  if ip.isEmpty ∧ fr.1.isEmpty then none
  else
    let mant : ℚ := (digitsToNat ip : ℚ) + (digitsToNat fr.1 : ℚ) / ((10 : ℚ) ^ fr.1.length)
    let e : ℤ :=
      match fr.2 with
      | 'e' :: t | 'E' :: t =>
        let st : ℤ × List Char :=
          match t with
          | '+' :: u => (1, u)
          | '-' :: u => (-1, u)
          | u => (1, u)
        let ed := st.2.takeWhile Char.isDigit
        if ed.isEmpty then 0 else st.1 * (digitsToNat ed : ℤ)
      | _ => 0
    some (sl.1 * mant * (10 : ℚ) ^ e)

/-- Decimal digits of a rational in `[0, 1)`, with fuel; used to model the
decimal rendering `String(number)`.  Every value representable in the source's
number type has a finite decimal expansion, so the fuel is never exhausted on
values the program can produce. -/
def fracDigits : ℕ → ℚ → List Char
  | 0, _ => []
  | fuel + 1, q =>
    if q = 0 then []
    else
      let q10 := q * 10
      let d : ℤ := q10.floor
      Char.ofNat (48 + d.toNat) :: fracDigits fuel (q10 - (d : ℚ))

/-- Model of `String(number)`: sign, integer part, and (when nonzero) the
fractional digits.  The rendering uses only digits, '-', and '.', as the
JavaScript rendering of a finite decimal does. -/
def numToString (q : ℚ) : String :=
  let sgn := if q < 0 then "-" else ""
  let a := if q < 0 then -q else q
  let ip : ℕ := a.floor.toNat
  let fd := fracDigits 64 (a - (ip : ℚ))
  sgn ++ toString ip ++ (if fd.isEmpty then "" else "." ++ String.mk fd)

/-- Model of the JavaScript `String(value)` conversion applied by the source to
`string | number | undefined | null` values. -/
def jsToString : JSVal → String
  | .undef => "undefined"
  | .null => "null"
  | .str s => s
  | .num q => numToString q

/-- The cleaning pipeline of `parseValue` (src/index.tsx line 151):
`strValue.replace('%', '').replace(',', '.').replace("'", "").trim()`. -/
def cleanStr (s : String) : String :=
  jsTrim ⟨remFirst apos (replFirst ',' '.' (remFirst '%' s.data))⟩

/-- Model of `parseValue` (src/index.tsx lines 147-154).  `none` models `NaN`.
The token test mirrors line 150; the else branch mirrors lines 151-153. -/
def parseValue (value : JSVal) : Option ℚ :=
  match value with
  | .undef => none
  | .null => none
  | v =>
    let strValue := jsToString v
    let low := jsLower strValue
    if low = "na" ∨ jsTrim strValue = "" ∨ strIncl low "andamento" = true ∨
        strIncl low "apurando" = true ∨ strIncl low "mensurado" = true ∨ low = "s/n" then
      none
    else
      parseFloatQ (cleanStr strValue)

/-- A status/severity pair as returned by `getStatus`. -/
structure StatusInfo : Type where
  text : String
  color : String
deriving DecidableEq, Repr

/-- Per-year record of a normalized goal (`YearlyGoalData`): expected value,
annual result, and the sub-period ("quadrimestre") result map.  The normalizer
always stores a (possibly empty) sub-period map. -/
structure YearRec : Type where
  esperado : JSVal
  resultado : JSVal
  quadrimestres : List (String × JSVal)
deriving DecidableEq, Repr

/-- A normalized goal (the `Goal` interface of src/index.tsx). -/
structure Goal : Type where
  id : ℕ
  title : String
  polaridade : String
  diretriz : String
  objetivo : String
  yearly_data : List (String × YearRec)
deriving DecidableEq, Repr

/-- Association-list lookup, modelling JavaScript object key access. -/
def look {κ α : Type} [DecidableEq κ] (k : κ) : List (κ × α) → Option α
  | [] => none
  | p :: t => if p.1 = k then some p.2 else look k t

/-- Association-list update, modelling JavaScript object key assignment:
replace the value at an existing key, or append a new binding. -/
def aset {κ α : Type} [DecidableEq κ] (k : κ) (v : α) : List (κ × α) → List (κ × α)
  | [] => [(k, v)]
  | p :: t => if p.1 = k then (k, v) :: t else p :: aset k v t

/-- Model of `getStatus` (src/index.tsx lines 157-181). -/
def getStatus (goal : Goal) (result expected : JSVal) : StatusInfo :=
  let resultadoVal := jsLower (jsToString result)
  if result = JSVal.undef ∨ result = JSVal.null ∨
      strIncl resultadoVal "andamento" = true ∨ strIncl resultadoVal "apurando" = true ∨
      resultadoVal = "s/n" ∨ resultadoVal = "na" ∨
      strIncl resultadoVal "mensurado" = true then
    { text := "Em Andamento", color := "yellow" }
  else
    match parseValue expected, parseValue result with
    | some esperadoNum, some resultadoNum =>
      if jsUpper goal.polaridade = "MENOR" then
        if resultadoNum < esperadoNum then { text := "Superada", color := "green" }
        else if resultadoNum = esperadoNum then { text := "Alcançada", color := "green" }
        else { text := "Não Alcançada", color := "red" }
      else
        if resultadoNum > esperadoNum then { text := "Superada", color := "green" }
        else if resultadoNum ≥ esperadoNum then { text := "Alcançada", color := "green" }
        else if resultadoNum ≥ esperadoNum * (0.9 : ℚ) then
          { text := "Parcialmente Alcançada", color := "orange" }
        else { text := "Não Alcançada", color := "red" }
    | _, _ => { text := "Não Aplicável", color := "gray" }

/-- Model of `getSimplifiedStatus` (src/index.tsx lines 183-194). -/
def getSimplifiedStatus (detailedStatusText : String) : String :=
  if detailedStatusText = "Superada" ∨ detailedStatusText = "Alcançada" then "Alcançada"
  else if detailedStatusText = "Parcialmente Alcançada" ∨ detailedStatusText = "Não Alcançada" then
    "Não Alcançada"
  else "Outro"

/-- Resolution of the result value for a chart/render cycle (src/index.tsx
lines 235-236): the annual result for the "anual" selection, otherwise the
sub-period entry with fallback to the annual result when it is absent. -/
def resolveResult (yd : YearRec) (quad : String) : JSVal :=
  let r := if quad = "anual" then yd.resultado else (look quad yd.quadrimestres).getD JSVal.undef
  if r = JSVal.undef ∧ quad ≠ "anual" then yd.resultado else r

/-- The per-year chart bucket counts (src/index.tsx lines 230-243): goals with
no record for the chart year are skipped; the rest contribute to exactly one
of the buckets (Alcançada, Não Alcançada, Outro). -/
def statusCounts : List Goal → String → String → ℕ × ℕ × ℕ
  | [], _, _ => (0, 0, 0)
  | g :: gs, year, quad =>
    let rest := statusCounts gs year quad
    match look year g.yearly_data with
    | none => rest
    | some yd =>
      let s := getSimplifiedStatus (getStatus g (resolveResult yd quad) yd.esperado).text
      if s = "Alcançada" then (rest.1 + 1, rest.2.1, rest.2.2)
      else if s = "Não Alcançada" then (rest.1, rest.2.1 + 1, rest.2.2)
      else (rest.1, rest.2.1, rest.2.2 + 1)

/-- Sum of the three bucket counts. -/
def sum3 (t : ℕ × ℕ × ℕ) : ℕ := t.1 + t.2.1 + t.2.2

/-- A raw goal record from the nested dataset (`panel-data.ts` shape as
consumed by `initializeData`). -/
structure RawGoal : Type where
  id : ℕ
  title : String
  polaridade : String
  esperado : JSVal
  resultado : JSVal
  quadrimestres : Option (List (String × JSVal))
deriving DecidableEq, Repr

/-- A (year, diretriz, objetivo, goal-record) quadruple. -/
abbrev Quad : Type := String × String × String × RawGoal

/-- The nested raw dataset: year → diretriz → objetivo → goal records, in
iteration order. -/
abbrev RawDataSets : Type :=
  List (String × List (String × List (String × List RawGoal)))

/-- The registry keyed by goal identifier (`masterData`). -/
abbrev Master : Type := List (ℕ × Goal)

/-- All quadruples of the dataset in iteration order, as traversed by both
passes of `initializeData`. -/
def quadruples (ds : RawDataSets) : List Quad :=
  ds.flatMap fun yd => yd.2.flatMap fun dd => dd.2.flatMap fun od =>
    od.2.map fun g => (yd.1, dd.1, od.1, g)

/-- The goal created by the first pass when an identifier is first seen
(src/index.tsx lines 68-77): title/polaridade from the record, diretriz and
objetivo from the current position, empty yearly data. -/
def mkG (q : Quad) : Goal :=
  { id := q.2.2.2.id, title := q.2.2.2.title, polaridade := q.2.2.2.polaridade,
    diretriz := q.2.1, objetivo := q.2.2.1, yearly_data := [] }

/-- One step of the first pass: create the goal if its id is not yet present. -/
def pass1Step (m : Master) (q : Quad) : Master :=
  match look q.2.2.2.id m with
  | some _ => m
  | none => m ++ [(q.2.2.2.id, mkG q)]

/-- The year record attached by the second pass (src/index.tsx lines 88-92);
an absent sub-period map defaults to the empty map. -/
def yearRecOf (q : Quad) : YearRec :=
  { esperado := q.2.2.2.esperado, resultado := q.2.2.2.resultado,
    quadrimestres := q.2.2.2.quadrimestres.getD [] }

/-- One step of the second pass: overwrite the goal's record for the
quadruple's year. -/
def pass2Step (m : Master) (q : Quad) : Master :=
  match look q.2.2.2.id m with
  | none => m
  | some g =>
    aset q.2.2.2.id { g with yearly_data := aset q.1 (yearRecOf q) g.yearly_data } m

/-- Both passes of `initializeData` (src/index.tsx lines 62-97). -/
def buildMaster (ds : RawDataSets) : Master :=
  (quadruples ds).foldl pass2Step ((quadruples ds).foldl pass1Step [])

/-- JavaScript truthiness on the modelled values (`undefined`, `null`, the
empty string and `0` are falsy). -/
def jsTruthy : JSVal → Bool
  | .undef => false
  | .null => false
  | .str s => !(s == "")
  | .num q => !(q == 0)

/-- The synthesized 2025 record (src/index.tsx lines 104-109):
`esperado: finalYearData?.esperado || "N/A"` — the optional chaining yields
`undefined` when the 2024 record is absent, and `||` falls back to "N/A" on
any falsy value; annual result and all three sub-period results are "S/N". -/
def synth2025 (g : Goal) : YearRec :=
  let e24 : JSVal :=
    match look "2024" g.yearly_data with
    | some yd => yd.esperado
    | none => JSVal.undef
  { esperado := if jsTruthy e24 then e24 else JSVal.str "N/A",
    resultado := JSVal.str "S/N",
    quadrimestres := [("1", JSVal.str "S/N"), ("2", JSVal.str "S/N"), ("3", JSVal.str "S/N")] }

/-- The 2025 placeholder synthesis (src/index.tsx lines 101-111), applied to
one goal: the record `synth2025` is added only when no 2025 record exists. -/
def add2025 (g : Goal) : Goal :=
  match look "2025" g.yearly_data with
  | some _ => g
  | none => { g with yearly_data := aset "2025" (synth2025 g) g.yearly_data }

/-- The full normalizer: both passes followed by the 2025 synthesis. -/
def normalizeRaw (ds : RawDataSets) : Master :=
  (buildMaster ds).map fun p => (p.1, add2025 p.2)

/-- A sample goal with the default (higher-is-better) polarity. -/
def gHigher : Goal :=
  { id := 1, title := "Meta A", polaridade := "maior", diretriz := "D1",
    objetivo := "O1", yearly_data := [] }

/-- A sample goal with the lower-is-better polarity. -/
def gLower : Goal :=
  { id := 2, title := "Meta B", polaridade := "menor", diretriz := "D1",
    objetivo := "O1", yearly_data := [] }

/-- A year record used by `gHigherCaps`. -/
def rec22 : YearRec :=
  { esperado := JSVal.str "1", resultado := JSVal.str "2", quadrimestres := [] }

/-- A goal identical to `gHigher` except for the letter case of its polarity
and its descriptive fields. -/
def gHigherCaps : Goal :=
  { id := 9, title := "Meta C", polaridade := "MaIoR", diretriz := "D9",
    objetivo := "O9", yearly_data := [("2022", rec22)] }

/-- The string `'3'` (an apostrophe-quoted digit, one of the documented
`parseValue` test inputs). -/
def quoted3 : String := ⟨[apos, '3', apos]⟩

/-- A raw record whose expected value is the number `0` — a legitimate,
present expected value (e.g. a zero-deaths target). -/
def rgZero : RawGoal :=
  { id := 1, title := "t", polaridade := "maior", esperado := JSVal.num 0,
    resultado := JSVal.str "10", quadrimestres := none }

/-- A dataset where goal 1 has only a 2024 record, whose expected value is 0. -/
def dsZero : RawDataSets := [("2024", [("D", [("O", [rgZero])])])]

/-- A raw record present only in the 2023 dataset. -/
def rg2023 : RawGoal :=
  { id := 1, title := "t", polaridade := "maior", esperado := JSVal.str "10",
    resultado := JSVal.str "12", quadrimestres := none }

/-- A dataset whose only year is 2023, so the normalized goal has no 2022
record. -/
def ds2023 : RawDataSets := [("2023", [("D", [("O", [rg2023])])])]

/-- First raw record introducing id 7, under diretriz D1 / objetivo O1. -/
def rgFirst7 : RawGoal :=
  { id := 7, title := "T1", polaridade := "maior", esperado := JSVal.str "1",
    resultado := JSVal.str "2", quadrimestres := none }

/-- A later raw record with the same id 7 but different title, polarity,
diretriz and objetivo. -/
def rgSecond7 : RawGoal :=
  { id := 7, title := "T2", polaridade := "menor", esperado := JSVal.str "3",
    resultado := JSVal.str "4", quadrimestres := none }

/-- A dataset referencing id 7 from two different diretriz/objetivo pairs. -/
def dsDup7 : RawDataSets :=
  [("2022", [("D1", [("O1", [rgFirst7])]), ("D2", [("O2", [rgSecond7])])])]

/-- The pre-synthesis registry value of goal 1 of `dsZero`: only a 2024
record, whose expected value is the number 0. -/
def recZero24 : YearRec :=
  { esperado := JSVal.num 0, resultado := JSVal.str "10", quadrimestres := [] }

/-- The registry entry that `buildMaster dsZero` produces for id 1. -/
def gZero24 : Goal :=
  { id := 1, title := "t", polaridade := "maior", diretriz := "D",
    objetivo := "O", yearly_data := [("2024", recZero24)] }

/-- The 2022 record of the normalized goal 7 of `dsDup7` (its yearly data
comes from the later quadruple). -/
def recDup22 : YearRec :=
  { esperado := JSVal.str "3", resultado := JSVal.str "4", quadrimestres := [] }

/-- The synthesized 2025 placeholder record with no prior expected value. -/
def recSN : YearRec :=
  { esperado := JSVal.str "N/A", resultado := JSVal.str "S/N",
    quadrimestres := [("1", JSVal.str "S/N"), ("2", JSVal.str "S/N"), ("3", JSVal.str "S/N")] }

/-- The normalized goal 7 of `dsDup7`: identity fields from the first
quadruple (D1/O1/T1/maior), yearly data from the later one. -/
def gDup7 : Goal :=
  { id := 7, title := "T1", polaridade := "maior", diretriz := "D1",
    objetivo := "O1", yearly_data := [("2022", recDup22), ("2025", recSN)] }

/-- The first quadruple of `dsDup7` introducing id 7. -/
def quadFirst7 : Quad := ("2022", "D1", "O1", rgFirst7)

/-- Core-field agreement between two goals: everything except the yearly
data.  The second pass and the 2025 synthesis preserve it. -/
def sameCore (g gQ : Goal) : Prop :=
  gQ.id = g.id ∧ gQ.title = g.title ∧ gQ.polaridade = g.polaridade ∧
    gQ.diretriz = g.diretriz ∧ gQ.objetivo = g.objetivo

/-- The goal with its polarity replaced by the canonical token it is
equivalent to under classification: "menor" when the polarity
case-insensitively equals "menor", otherwise "maior"; all other fields are
unchanged. -/
def canonPolarity (g : Goal) : Goal :=
  { g with polaridade := if jsLower g.polaridade = "menor" then "menor" else "maior" }

/-! ### Character-level lemmas about the case-conversion model -/

theorem charToNat_inj {a b : Char} (h : a.toNat = b.toNat) : a = b :=
  Char.eq_of_val_eq (UInt32.eq_of_toBitVec_eq (BitVec.toNat_eq.mpr h))

theorem charEq_iff_toNat {a b : Char} : a = b ↔ a.toNat = b.toNat :=
  ⟨fun h => h ▸ rfl, charToNat_inj⟩

theorem toNat_ofNat_small {n : ℕ} (h : n < 55296) : (Char.ofNat n).toNat = n := by
  rw [Char.ofNat, dif_pos (Or.inl h)]
  rfl

theorem lowChar_eq_iff (c lo : Char) (h1 : 97 ≤ lo.toNat) (h2 : lo.toNat ≤ 122) :
    lowChar c = lo ↔ (c.toNat = lo.toNat ∨ c.toNat = lo.toNat - 32) := by
  unfold lowChar
  split_ifs with h
  · rw [charEq_iff_toNat, toNat_ofNat_small (by omega)]
    omega
  · rw [charEq_iff_toNat]
    omega

theorem upChar_eq_iff (c up : Char) (h1 : 65 ≤ up.toNat) (h2 : up.toNat ≤ 90) :
    upChar c = up ↔ (c.toNat = up.toNat ∨ c.toNat = up.toNat + 32) := by
  unfold upChar
  split_ifs with h
  · rw [charEq_iff_toNat, toNat_ofNat_small (by omega)]
    omega
  · rw [charEq_iff_toNat]
    omega

theorem lowChar_eq_m (c : Char) : lowChar c = 'm' ↔ (c.toNat = 109 ∨ c.toNat = 77) := by
  have h := lowChar_eq_iff c 'm' (by decide) (by decide)
  have e : Char.toNat 'm' = 109 := by decide
  rw [h, e]

theorem lowChar_eq_e (c : Char) : lowChar c = 'e' ↔ (c.toNat = 101 ∨ c.toNat = 69) := by
  have h := lowChar_eq_iff c 'e' (by decide) (by decide)
  have e : Char.toNat 'e' = 101 := by decide
  rw [h, e]

theorem lowChar_eq_n (c : Char) : lowChar c = 'n' ↔ (c.toNat = 110 ∨ c.toNat = 78) := by
  have h := lowChar_eq_iff c 'n' (by decide) (by decide)
  have e : Char.toNat 'n' = 110 := by decide
  rw [h, e]

theorem lowChar_eq_o (c : Char) : lowChar c = 'o' ↔ (c.toNat = 111 ∨ c.toNat = 79) := by
  have h := lowChar_eq_iff c 'o' (by decide) (by decide)
  have e : Char.toNat 'o' = 111 := by decide
  rw [h, e]

theorem lowChar_eq_r (c : Char) : lowChar c = 'r' ↔ (c.toNat = 114 ∨ c.toNat = 82) := by
  have h := lowChar_eq_iff c 'r' (by decide) (by decide)
  have e : Char.toNat 'r' = 114 := by decide
  rw [h, e]

theorem upChar_eq_M (c : Char) : upChar c = 'M' ↔ (c.toNat = 109 ∨ c.toNat = 77) := by
  have h := upChar_eq_iff c 'M' (by decide) (by decide)
  have e : Char.toNat 'M' = 77 := by decide
  rw [h, e]
  omega

theorem upChar_eq_E (c : Char) : upChar c = 'E' ↔ (c.toNat = 101 ∨ c.toNat = 69) := by
  have h := upChar_eq_iff c 'E' (by decide) (by decide)
  have e : Char.toNat 'E' = 69 := by decide
  rw [h, e]
  omega

theorem upChar_eq_N (c : Char) : upChar c = 'N' ↔ (c.toNat = 110 ∨ c.toNat = 78) := by
  have h := upChar_eq_iff c 'N' (by decide) (by decide)
  have e : Char.toNat 'N' = 78 := by decide
  rw [h, e]
  omega

theorem upChar_eq_O (c : Char) : upChar c = 'O' ↔ (c.toNat = 111 ∨ c.toNat = 79) := by
  have h := upChar_eq_iff c 'O' (by decide) (by decide)
  have e : Char.toNat 'O' = 79 := by decide
  rw [h, e]
  omega

theorem upChar_eq_R (c : Char) : upChar c = 'R' ↔ (c.toNat = 114 ∨ c.toNat = 82) := by
  have h := upChar_eq_iff c 'R' (by decide) (by decide)
  have e : Char.toNat 'R' = 82 := by decide
  rw [h, e]
  omega

theorem mapUp_menor (l : List Char) :
    l.map upChar = ['M', 'E', 'N', 'O', 'R'] ↔ l.map lowChar = ['m', 'e', 'n', 'o', 'r'] := by
  rcases l with _ | ⟨a, _ | ⟨b, _ | ⟨c, _ | ⟨d, _ | ⟨e, _ | ⟨f, t⟩⟩⟩⟩⟩⟩ <;>
    simp [upChar_eq_M, upChar_eq_E, upChar_eq_N, upChar_eq_O, upChar_eq_R,
      lowChar_eq_m, lowChar_eq_e, lowChar_eq_n, lowChar_eq_o, lowChar_eq_r]

theorem jsUpper_menor_iff (s : String) : jsUpper s = "MENOR" ↔ jsLower s = "menor" := by
  rcases s with ⟨l⟩
  have hu : ("MENOR" : String).data = ['M', 'E', 'N', 'O', 'R'] := rfl
  have hl : ("menor" : String).data = ['m', 'e', 'n', 'o', 'r'] := rfl
  rw [jsUpper, jsLower, String.ext_iff, String.ext_iff, hu, hl]
  exact mapUp_menor l

/-! ### Whitespace lemmas -/

theorem isWS_cases {c : Char} (h : isWS c = true) :
    c = ' ' ∨ c = '\t' ∨ c = '\n' ∨ c = '\r' := by
  have h2 : ((c = ' ' ∨ c = '\t') ∨ c = '\n') ∨ c = '\r' := by simpa [isWS] using h
  tauto

theorem lowChar_ws {c : Char} (h : isWS c = true) : lowChar c = c := by
  rcases isWS_cases h with rfl | rfl | rfl | rfl <;> decide

theorem allWS_map_low {l : List Char} (hl : ∀ c ∈ l, isWS c = true) :
    ∀ c ∈ l.map lowChar, isWS c = true := by
  intro c hc
  rcases List.mem_map.mp hc with ⟨a, ha, rfl⟩
  rw [lowChar_ws (hl a ha)]
  exact hl a ha

theorem startsSeq_ws_false {c0 : Char} (pt : List Char) (hc0 : isWS c0 = false)
    {l : List Char} (hl : ∀ c ∈ l, isWS c = true) :
    startsSeq (c0 :: pt) l = false := by
  cases l with
  | nil => rfl
  | cons b bs =>
    have hb : isWS b = true := hl b (List.mem_cons_self b bs)
    have hne : c0 ≠ b := by
      intro he
      rw [he, hb] at hc0
      cases hc0
    simp [startsSeq, hne]

theorem containsSeq_ws_false {c0 : Char} (pt : List Char) (hc0 : isWS c0 = false)
    {l : List Char} (hl : ∀ c ∈ l, isWS c = true) :
    containsSeq (c0 :: pt) l = false := by
  induction l with
  | nil => rfl
  | cons b bs ih =>
    have hbs : ∀ c ∈ bs, isWS c = true := fun c hc => hl c (List.mem_cons_of_mem b hc)
    rw [containsSeq, startsSeq_ws_false pt hc0 hl, ih hbs]
    rfl

theorem trimChars_nil_of_ws {l : List Char} (hl : ∀ c ∈ l, isWS c = true) :
    trimChars l = [] := by
  unfold trimChars
  rw [List.dropWhile_eq_nil_iff.mpr (fun x hx => hl x hx)]
  rfl

theorem allWS_ne_cons {l : List Char} (hl : ∀ c ∈ l, isWS c = true)
    {c0 : Char} (hc0 : isWS c0 = false) (t : List Char) : l ≠ c0 :: t := by
  intro he
  have hmem : isWS c0 = true := hl c0 (he ▸ List.mem_cons_self c0 t)
  rw [hmem] at hc0
  cases hc0

/-! ### Characterization of successful parses -/

theorem parseValue_some_elim {v : JSVal} {x : ℚ} (h : parseValue v = some x) :
    v ≠ JSVal.undef ∧ v ≠ JSVal.null ∧
    ¬(jsLower (jsToString v) = "na") ∧ ¬(jsTrim (jsToString v) = "") ∧
    strIncl (jsLower (jsToString v)) "andamento" = false ∧
    strIncl (jsLower (jsToString v)) "apurando" = false ∧
    strIncl (jsLower (jsToString v)) "mensurado" = false ∧
    ¬(jsLower (jsToString v) = "s/n") ∧
    parseFloatQ (cleanStr (jsToString v)) = some x := by
  cases v with
  | undef => simp [parseValue] at h
  | null => simp [parseValue] at h
  | str s =>
    simp only [parseValue, jsToString] at h ⊢
    by_cases hC : jsLower s = "na" ∨ jsTrim s = "" ∨ strIncl (jsLower s) "andamento" = true ∨
        strIncl (jsLower s) "apurando" = true ∨ strIncl (jsLower s) "mensurado" = true ∨
        jsLower s = "s/n"
    · rw [if_pos hC] at h
      cases h
    · rw [if_neg hC] at h
      push_neg at hC
      obtain ⟨h1, h2, h3, h4, h5, h6⟩ := hC
      refine ⟨by simp, by simp, h1, h2, ?_, ?_, ?_, h6, h⟩ <;>
        simp only [Bool.not_eq_true] at h3 h4 h5 <;> assumption
  | num q =>
    simp only [parseValue, jsToString] at h ⊢
    by_cases hC : jsLower (numToString q) = "na" ∨ jsTrim (numToString q) = "" ∨
        strIncl (jsLower (numToString q)) "andamento" = true ∨
        strIncl (jsLower (numToString q)) "apurando" = true ∨
        strIncl (jsLower (numToString q)) "mensurado" = true ∨
        jsLower (numToString q) = "s/n"
    · rw [if_pos hC] at h
      cases h
    · rw [if_neg hC] at h
      push_neg at hC
      obtain ⟨h1, h2, h3, h4, h5, h6⟩ := hC
      refine ⟨by simp, by simp, h1, h2, ?_, ?_, ?_, h6, h⟩ <;>
        simp only [Bool.not_eq_true] at h3 h4 h5 <;> assumption

theorem getStatus_parsed (g : Goal) {r e : JSVal} {rn en : ℚ}
    (hr : parseValue r = some rn) (he : parseValue e = some en) :
    getStatus g r e =
      if jsUpper g.polaridade = "MENOR" then
        if rn < en then { text := "Superada", color := "green" }
        else if rn = en then { text := "Alcançada", color := "green" }
        else { text := "Não Alcançada", color := "red" }
      else
        if rn > en then { text := "Superada", color := "green" }
        else if rn ≥ en then { text := "Alcançada", color := "green" }
        else if rn ≥ en * (0.9 : ℚ) then { text := "Parcialmente Alcançada", color := "orange" }
        else { text := "Não Alcançada", color := "red" } := by
  obtain ⟨hu, hn, h1, _, h3, h4, h5, h6, _⟩ := parseValue_some_elim hr
  have hcond : ¬(r = JSVal.undef ∨ r = JSVal.null ∨
      strIncl (jsLower (jsToString r)) "andamento" = true ∨
      strIncl (jsLower (jsToString r)) "apurando" = true ∨
      jsLower (jsToString r) = "s/n" ∨ jsLower (jsToString r) = "na" ∨
      strIncl (jsLower (jsToString r)) "mensurado" = true) := by
    rintro (hbad | hbad | hbad | hbad | hbad | hbad | hbad)
    · exact hu hbad
    · exact hn hbad
    · rw [hbad] at h3; cases h3
    · rw [hbad] at h4; cases h4
    · exact h6 hbad
    · exact h1 hbad
    · rw [hbad] at h5; cases h5
  simp only [getStatus]
  rw [if_neg hcond, he, hr]

theorem strIncl_ws_false (s : String) (hws : ∀ c ∈ s.data, isWS c = true)
    (c0 : Char) (pt : List Char) (pat : String) (hpat : pat.data = c0 :: pt)
    (hc0 : isWS c0 = false) : strIncl s pat = false := by
  rw [strIncl, hpat]
  exact containsSeq_ws_false pt hc0 hws

theorem getStatus_eq_of_menor_iff (g1 g2 : Goal) (r e : JSVal)
    (h : (jsUpper g1.polaridade = "MENOR") ↔ (jsUpper g2.polaridade = "MENOR")) :
    getStatus g1 r e = getStatus g2 r e := by
  by_cases hm : jsUpper g1.polaridade = "MENOR"
  · have hm2 : jsUpper g2.polaridade = "MENOR" := h.mp hm
    simp [getStatus, hm, hm2]
  · have hm2 : ¬jsUpper g2.polaridade = "MENOR" := fun hx => hm (h.mpr hx)
    simp [getStatus, hm, hm2]

/-! ### Association-list and normalizer-pass lemmas -/

theorem look_append_of_ne {κ α : Type} [DecidableEq κ] (k j : κ) (v : α)
    (m : List (κ × α)) (h : j ≠ k) : look k (m ++ [(j, v)]) = look k m := by
  induction m with
  | nil => simp [look, h]
  | cons p t ih =>
    simp only [List.cons_append, look]
    split_ifs with hp
    · rfl
    · exact ih

theorem look_append_some {κ α : Type} [DecidableEq κ] (k : κ) (v : α)
    (m : List (κ × α)) (h : look k m = none) : look k (m ++ [(k, v)]) = some v := by
  induction m with
  | nil => simp [look]
  | cons p t ih =>
    simp only [look] at h
    simp only [List.cons_append, look]
    split_ifs with hp
    · rw [if_pos hp] at h
      cases h
    · rw [if_neg hp] at h
      exact ih h

theorem look_aset_self {κ α : Type} [DecidableEq κ] (k : κ) (v : α)
    (m : List (κ × α)) : look k (aset k v m) = some v := by
  induction m with
  | nil => simp [aset, look]
  | cons p t ih =>
    simp only [aset]
    split_ifs with hp
    · simp [look]
    · simp only [look]
      rw [if_neg hp]
      exact ih

theorem look_aset_ne {κ α : Type} [DecidableEq κ] (k j : κ) (v : α)
    (m : List (κ × α)) (h : j ≠ k) : look k (aset j v m) = look k m := by
  induction m with
  | nil => simp [aset, look, h]
  | cons p t ih =>
    simp only [aset]
    split_ifs with hp
    · simp only [look]
      rw [if_neg h, hp, if_neg h]
    · simp only [look]
      split_ifs with hpk
      · rfl
      · exact ih

theorem look_map_val {κ α β : Type} [DecidableEq κ] (f : α → β) (k : κ)
    (m : List (κ × α)) :
    look k (m.map (fun p => (p.1, f p.2))) = (look k m).map f := by
  induction m with
  | nil => rfl
  | cons p t ih =>
    simp only [List.map_cons, look]
    split_ifs with hp
    · rfl
    · exact ih

theorem pass1_preserve (qs : List Quad) (m : Master) (i : ℕ) (g : Goal)
    (h : look i m = some g) : look i (qs.foldl pass1Step m) = some g := by
  induction qs generalizing m with
  | nil => exact h
  | cons q qs ih =>
    rw [List.foldl_cons]
    apply ih
    rw [pass1Step]
    cases hq : look q.2.2.2.id m with
    | some g0 => exact h
    | none =>
      by_cases hij : q.2.2.2.id = i
      · rw [hij, h] at hq
        cases hq
      · rw [look_append_of_ne i q.2.2.2.id (mkG q) m hij]
        exact h

theorem pass1_first (qs : List Quad) (m : Master) (i : ℕ) (h : look i m = none) :
    look i (qs.foldl pass1Step m) =
      (qs.find? (fun q => q.2.2.2.id == i)).map mkG := by
  induction qs generalizing m with
  | nil => simpa using h
  | cons q qs ih =>
    rw [List.foldl_cons, List.find?_cons]
    by_cases hqi : q.2.2.2.id = i
    · have hp : (q.2.2.2.id == i) = true := by simp [hqi]
      rw [hp]
      have hstep : pass1Step m q = m ++ [(i, mkG q)] := by
        rw [pass1Step, hqi, h]
      rw [hstep]
      exact pass1_preserve qs _ i (mkG q) (look_append_some i (mkG q) m h)
    · have hp : (q.2.2.2.id == i) = false := by simp [hqi]
      rw [hp]
      apply ih
      rw [pass1Step]
      cases hq : look q.2.2.2.id m with
      | some g0 => exact h
      | none =>
        rw [look_append_of_ne i q.2.2.2.id (mkG q) m hqi]
        exact h

theorem pass2Step_core (m : Master) (q : Quad) (i : ℕ) (gq : Goal)
    (h : look i (pass2Step m q) = some gq) :
    ∃ g, look i m = some g ∧ sameCore g gq := by
  rw [pass2Step] at h
  cases hq : look q.2.2.2.id m with
  | none =>
    rw [hq] at h
    exact ⟨gq, h, rfl, rfl, rfl, rfl, rfl⟩
  | some g0 =>
    rw [hq] at h
    by_cases hij : q.2.2.2.id = i
    · subst hij
      rw [look_aset_self] at h
      cases h
      exact ⟨g0, hq, rfl, rfl, rfl, rfl, rfl⟩
    · rw [look_aset_ne i q.2.2.2.id _ m hij] at h
      exact ⟨gq, h, rfl, rfl, rfl, rfl, rfl⟩

theorem pass2_core (qs : List Quad) (m : Master) (i : ℕ) (gq : Goal)
    (h : look i (qs.foldl pass2Step m) = some gq) :
    ∃ g, look i m = some g ∧ sameCore g gq := by
  induction qs generalizing m with
  | nil => exact ⟨gq, h, rfl, rfl, rfl, rfl, rfl⟩
  | cons q qs ih =>
    rw [List.foldl_cons] at h
    obtain ⟨g1, hg1, hc1⟩ := ih (pass2Step m q) h
    obtain ⟨g0, hg0, hc0⟩ := pass2Step_core m q i g1 hg1
    refine ⟨g0, hg0, ?_⟩
    obtain ⟨a1, b1, c1, d1, e1⟩ := hc0
    obtain ⟨a2, b2, c2, d2, e2⟩ := hc1
    exact ⟨a2.trans a1, b2.trans b1, c2.trans c1, d2.trans d1, e2.trans e1⟩

theorem add2025_core (g : Goal) : sameCore g (add2025 g) := by
  rw [add2025]
  cases h : look "2025" g.yearly_data <;> exact ⟨rfl, rfl, rfl, rfl, rfl⟩

/-! ### Claim theorems -/

/-- C1: for every goal whose polarity is anything other than lower-is-better
(the default), and all result/expected values that both parse to numbers,
`getStatus` applies, first match wins: result > expected → Superada;
result ≥ expected → Alcançada; result ≥ 0.9 × expected → Parcialmente
Alcançada; otherwise Não Alcançada.  In particular with expected 100:
result 101 → Superada, 100 → Alcançada, 95 → Parcialmente Alcançada,
89.9 → Não Alcançada. -/
theorem claim_c1_higher_thresholds :
    (∀ (g : Goal) (r e : JSVal) (rn en : ℚ),
      jsUpper g.polaridade ≠ "MENOR" →
      parseValue r = some rn → parseValue e = some en →
      getStatus g r e =
        if rn > en then { text := "Superada", color := "green" }
        else if rn ≥ en then { text := "Alcançada", color := "green" }
        else if rn ≥ en * (0.9 : ℚ) then { text := "Parcialmente Alcançada", color := "orange" }
        else { text := "Não Alcançada", color := "red" }) ∧
    getStatus gHigher (JSVal.str "101") (JSVal.str "100") = { text := "Superada", color := "green" } ∧
    getStatus gHigher (JSVal.str "100") (JSVal.str "100") = { text := "Alcançada", color := "green" } ∧
    getStatus gHigher (JSVal.str "95") (JSVal.str "100") =
      { text := "Parcialmente Alcançada", color := "orange" } ∧
    getStatus gHigher (JSVal.str "89.9") (JSVal.str "100") =
      { text := "Não Alcançada", color := "red" } := by
  refine ⟨?_, by with_unfolding_all decide, by with_unfolding_all decide, by with_unfolding_all decide, by with_unfolding_all decide⟩
  intro g r e rn en hp hr he
  rw [getStatus_parsed g hr he, if_neg hp]

/-- C1 witness: the general threshold theorem applied at the concrete
boundary input expected 100 / result 95. -/
theorem claim_c1_witness :
    getStatus gHigher (JSVal.str "95") (JSVal.str "100") =
      { text := "Parcialmente Alcançada", color := "orange" } := by
  have h := claim_c1_higher_thresholds.1 gHigher (JSVal.str "95") (JSVal.str "100") 95 100
    (by decide) (by with_unfolding_all decide) (by with_unfolding_all decide)
  rw [h]
  with_unfolding_all decide

/-- C2: for every goal with lower-is-better polarity and all result/expected
values that both parse to numbers: result < expected → Superada;
result = expected → Alcançada; otherwise Não Alcançada — there is no
Parcialmente Alcançada tier.  In particular with expected 50: 49 → Superada,
50 → Alcançada, 51 → Não Alcançada. -/
theorem claim_c2_lower_thresholds :
    (∀ (g : Goal) (r e : JSVal) (rn en : ℚ),
      jsUpper g.polaridade = "MENOR" →
      parseValue r = some rn → parseValue e = some en →
      getStatus g r e =
        if rn < en then { text := "Superada", color := "green" }
        else if rn = en then { text := "Alcançada", color := "green" }
        else { text := "Não Alcançada", color := "red" }) ∧
    getStatus gLower (JSVal.str "49") (JSVal.str "50") = { text := "Superada", color := "green" } ∧
    getStatus gLower (JSVal.str "50") (JSVal.str "50") = { text := "Alcançada", color := "green" } ∧
    getStatus gLower (JSVal.str "51") (JSVal.str "50") = { text := "Não Alcançada", color := "red" } := by
  refine ⟨?_, by with_unfolding_all decide, by with_unfolding_all decide, by with_unfolding_all decide⟩
  intro g r e rn en hp hr he
  rw [getStatus_parsed g hr he, if_pos hp]

/-- C2 witness: the general lower-is-better theorem applied at the concrete
input expected 50 / result 49. -/
theorem claim_c2_witness :
    getStatus gLower (JSVal.str "49") (JSVal.str "50") = { text := "Superada", color := "green" } := by
  have h := claim_c2_lower_thresholds.1 gLower (JSVal.str "49") (JSVal.str "50") 49 50
    (by decide) (by with_unfolding_all decide) (by with_unfolding_all decide)
  rw [h]
  with_unfolding_all decide

/-- C3: for every goal and expected value, a raw result that is absent
(undefined/null), or whose text case-insensitively contains "andamento",
"apurando" or "mensurado", or case-insensitively equals "s/n" or "na",
classifies as Em Andamento (yellow) regardless of numeric parsing.  In
particular "apurando (80%)" → Em Andamento. -/
theorem claim_c3_placeholder :
    (∀ (g : Goal) (e r : JSVal),
      (r = JSVal.undef ∨ r = JSVal.null ∨
        strIncl (jsLower (jsToString r)) "andamento" = true ∨
        strIncl (jsLower (jsToString r)) "apurando" = true ∨
        strIncl (jsLower (jsToString r)) "mensurado" = true ∨
        jsLower (jsToString r) = "s/n" ∨ jsLower (jsToString r) = "na") →
      getStatus g r e = { text := "Em Andamento", color := "yellow" }) ∧
    getStatus gHigher (JSVal.str "apurando (80%)") (JSVal.str "100") =
      { text := "Em Andamento", color := "yellow" } := by
  refine ⟨?_, by with_unfolding_all decide⟩
  intro g e r hcond
  simp only [getStatus]
  rw [if_pos (by tauto)]

/-- C3 witness: the placeholder theorem applied at the concrete raw result
"apurando (80%)", which despite its numeric-looking part is Em Andamento. -/
theorem claim_c3_witness :
    getStatus gLower (JSVal.str "apurando (80%)") (JSVal.str "50") =
      { text := "Em Andamento", color := "yellow" } :=
  claim_c3_placeholder.1 gLower (JSVal.str "50") (JSVal.str "apurando (80%)")
    (by right; right; right; left; decide)

/-- C5 counterexample: the claim asserts that every input whose cleaned text
is not a valid number representation (it names "12abc" as an example) parses
to NotANumber, and that only a trailing "%" is stripped; but the code's
`parseFloat` accepts the longest numeric prefix, so "12abc" parses to 12,
and the code removes the first "%" anywhere, so "%5" parses to 5. -/
theorem claim_c5_counterexample :
    parseValue (JSVal.str "12abc") = some 12 ∧ parseValue (JSVal.str "%5") = some 5 := by
  with_unfolding_all decide

/-- C5 amended: for every defined non-placeholder input, `parseValue` removes
the first "%", replaces the first "," with ".", removes the first apostrophe,
trims, and then parses the longest leading numeric prefix of the cleaned
text; it returns NotANumber exactly when no numeric prefix exists (e.g.
"garbage"), so "12abc" yields 12 and "%5" yields 5. -/
theorem claim_c5_amended :
    (∀ s : String,
      ¬(jsLower s = "na" ∨ jsTrim s = "" ∨ strIncl (jsLower s) "andamento" = true ∨
        strIncl (jsLower s) "apurando" = true ∨ strIncl (jsLower s) "mensurado" = true ∨
        jsLower s = "s/n") →
      parseValue (JSVal.str s) = parseFloatQ (cleanStr s)) ∧
    parseValue (JSVal.str "garbage") = none ∧
    parseValue (JSVal.str "12abc") = some 12 ∧
    parseValue (JSVal.str "%5") = some 5 ∧
    parseValue (JSVal.str "12,5%") = some (25 / 2 : ℚ) := by
  refine ⟨?_, by with_unfolding_all decide, by with_unfolding_all decide, by with_unfolding_all decide, by with_unfolding_all decide⟩
  intro s h
  simp only [parseValue, jsToString]
  rw [if_neg h]

/-- C5 witness: the amended cleaning/parsing equation applied at the concrete
non-placeholder input "x7". -/
theorem claim_c5_witness :
    parseValue (JSVal.str "x7") = parseFloatQ (cleanStr "x7") :=
  claim_c5_amended.1 "x7" (by decide)

/-- C6: `parseValue` is total (it is a function into `Option ℚ`; `none`
models NaN and no exception exists).  Undefined, null, empty or
whitespace-only strings, case-insensitive "na", strings containing
"andamento"/"apurando"/"mensurado", and case-insensitive "s/n" all yield
NotANumber; "12,5%" yields 12.5, "7" yields 7, "'3'" yields 3, and
"garbage" yields NotANumber. -/
theorem claim_c6_parse_total :
    (∀ s : String, jsLower s = "na" → parseValue (JSVal.str s) = none) ∧
    (∀ s : String, jsTrim s = "" → parseValue (JSVal.str s) = none) ∧
    (∀ s : String, strIncl (jsLower s) "andamento" = true → parseValue (JSVal.str s) = none) ∧
    (∀ s : String, strIncl (jsLower s) "apurando" = true → parseValue (JSVal.str s) = none) ∧
    (∀ s : String, strIncl (jsLower s) "mensurado" = true → parseValue (JSVal.str s) = none) ∧
    (∀ s : String, jsLower s = "s/n" → parseValue (JSVal.str s) = none) ∧
    parseValue JSVal.undef = none ∧ parseValue JSVal.null = none ∧
    parseValue (JSVal.str "") = none ∧ parseValue (JSVal.str "NA") = none ∧
    parseValue (JSVal.str "na") = none ∧ parseValue (JSVal.str "S/N") = none ∧
    parseValue (JSVal.str "andamento") = none ∧
    parseValue (JSVal.str "12,5%") = some (25 / 2 : ℚ) ∧
    parseValue (JSVal.str "7") = some 7 ∧
    parseValue (JSVal.str quoted3) = some 3 ∧
    parseValue (JSVal.str "garbage") = none := by
  refine ⟨?_, ?_, ?_, ?_, ?_, ?_, by decide, by decide, by decide, by decide, by decide,
    by decide, by decide, by with_unfolding_all decide, by with_unfolding_all decide,
    by with_unfolding_all decide, by decide⟩ <;>
    · intro s h
      simp only [parseValue, jsToString]
      rw [if_pos (by tauto)]

/-- C6 witness: the case-insensitive "na" clause applied at the concrete
mixed-case input "nA". -/
theorem claim_c6_witness : parseValue (JSVal.str "nA") = none :=
  claim_c6_parse_total.1 "nA" (by decide)

/-- C9: for every goal and every expected value, an empty or whitespace-only
result string passes the raw-placeholder check but parses to NotANumber, so
`getStatus` returns Não Aplicável (gray), not Em Andamento. -/
theorem claim_c9_blank_result :
    ∀ (g : Goal) (e : JSVal) (s : String), (∀ c ∈ s.data, isWS c = true) →
      getStatus g (JSVal.str s) e = { text := "Não Aplicável", color := "gray" } := by
  intro g e s hws
  have hlow : ∀ c ∈ (jsLower s).data, isWS c = true := by
    rcases s with ⟨l⟩
    exact allWS_map_low hws
  have handa : strIncl (jsLower s) "andamento" = false :=
    strIncl_ws_false (jsLower s) hlow 'a' ("ndamento".data) "andamento" rfl (by decide)
  have hapu : strIncl (jsLower s) "apurando" = false :=
    strIncl_ws_false (jsLower s) hlow 'a' ("purando".data) "apurando" rfl (by decide)
  have hmen : strIncl (jsLower s) "mensurado" = false :=
    strIncl_ws_false (jsLower s) hlow 'm' ("ensurado".data) "mensurado" rfl (by decide)
  have hsn : jsLower s ≠ "s/n" := by
    intro he
    rw [String.ext_iff] at he
    exact allWS_ne_cons hlow (by decide) ['/', 'n'] (he.trans rfl)
  have hna : jsLower s ≠ "na" := by
    intro he
    rw [String.ext_iff] at he
    exact allWS_ne_cons hlow (by decide) ['a'] (he.trans rfl)
  have hcond : ¬(JSVal.str s = JSVal.undef ∨ JSVal.str s = JSVal.null ∨
      strIncl (jsLower (jsToString (JSVal.str s))) "andamento" = true ∨
      strIncl (jsLower (jsToString (JSVal.str s))) "apurando" = true ∨
      jsLower (jsToString (JSVal.str s)) = "s/n" ∨
      jsLower (jsToString (JSVal.str s)) = "na" ∨
      strIncl (jsLower (jsToString (JSVal.str s))) "mensurado" = true) := by
    simp only [jsToString]
    rintro (hbad | hbad | hbad | hbad | hbad | hbad | hbad)
    · cases hbad
    · cases hbad
    · rw [hbad] at handa; cases handa
    · rw [hbad] at hapu; cases hapu
    · exact hsn hbad
    · exact hna hbad
    · rw [hbad] at hmen; cases hmen
  have hpv : parseValue (JSVal.str s) = none := by
    have htrim : jsTrim s = "" := by
      rw [jsTrim, trimChars_nil_of_ws hws]
    simp only [parseValue, jsToString]
    rw [if_pos (Or.inr (Or.inl htrim))]
  simp only [getStatus]
  rw [if_neg hcond, hpv]
  cases hpe : parseValue e <;> rfl

/-- C9 witness: the blank-result theorem applied at the concrete two-space
result string. -/
theorem claim_c9_witness :
    getStatus gHigher (JSVal.str "  ") (JSVal.str "100") =
      { text := "Não Aplicável", color := "gray" } :=
  claim_c9_blank_result gHigher (JSVal.str "100") "  " (by decide)

/-- C10: `getStatus` depends on the goal only through its polarity, compared
case-insensitively: goals whose polarity strings agree up to letter case
classify every result/expected pair identically, regardless of id, title,
diretriz, objetivo or yearly data; and everything observable factors through
whether the polarity case-insensitively equals "menor". -/
theorem claim_c10_polarity_only :
    (∀ (g1 g2 : Goal) (r e : JSVal), jsLower g1.polaridade = jsLower g2.polaridade →
      getStatus g1 r e = getStatus g2 r e) ∧
    (∀ (g : Goal) (r e : JSVal), getStatus g r e = getStatus (canonPolarity g) r e) := by
  constructor
  · intro g1 g2 r e h
    apply getStatus_eq_of_menor_iff
    rw [jsUpper_menor_iff, jsUpper_menor_iff, h]
  · intro g r e
    apply getStatus_eq_of_menor_iff
    rw [jsUpper_menor_iff, jsUpper_menor_iff]
    show jsLower g.polaridade = "menor" ↔
      jsLower (if jsLower g.polaridade = "menor" then "menor" else "maior") = "menor"
    by_cases hl : jsLower g.polaridade = "menor"
    · constructor
      · intro _
        rw [if_pos hl]
        decide
      · intro _
        exact hl
    · constructor
      · intro hx
        exact absurd hx hl
      · intro hx
        rw [if_neg hl] at hx
        exact absurd hx (by decide)

/-- C10 witness: two goals differing in id, title, diretriz, objetivo, yearly
data and polarity letter case classify a concrete pair identically. -/
theorem claim_c10_witness :
    getStatus gHigher (JSVal.str "5") (JSVal.str "4") =
      getStatus gHigherCaps (JSVal.str "5") (JSVal.str "4") :=
  claim_c10_polarity_only.1 gHigher gHigherCaps (JSVal.str "5") (JSVal.str "4") (by decide)

/-- C7 amended: the three simplified-status bucket counts sum exactly to the
number of goals in the filtered set that have a yearly record for the chart
year, for every year and sub-period selection; goals without a record for
that year are skipped and counted in no bucket. -/
theorem claim_c7_amended :
    ∀ (goals : List Goal) (year quad : String),
      sum3 (statusCounts goals year quad) =
        (goals.filter (fun g => (look year g.yearly_data).isSome)).length := by
  intro goals year quad
  induction goals with
  | nil => rfl
  | cons g gs ih =>
    rw [statusCounts, List.filter_cons]
    cases hl : look year g.yearly_data with
    | none => simp [hl, ih]
    | some yd =>
      simp only [hl, Option.isSome_some, if_true]
      have ih2 : (statusCounts gs year quad).1 + (statusCounts gs year quad).2.1 +
          (statusCounts gs year quad).2.2 =
          (gs.filter (fun g => (look year g.yearly_data).isSome)).length := ih
      split_ifs with h1 h2 <;> simp only [sum3, List.length_cons] <;> omega

/-- C7 counterexample: for the normalized registry of a dataset whose only
year is 2023, the bucket counts for chart year 2022 sum to 0 while the
filtered set has one goal, so the counts do not sum to the size of the
filtered set as the claim states. -/
theorem claim_c7_counterexample :
    sum3 (statusCounts ((normalizeRaw ds2023).map Prod.snd) "2022" "anual") = 0 ∧
    ((normalizeRaw ds2023).map Prod.snd).length = 1 := by
  with_unfolding_all decide

/-- C8: for every raw dataset and goal identifier, the normalized goal's
diretriz, objetivo, title and polarity equal those of the first quadruple
(in dataset iteration order) that introduced the identifier; later
quadruples with the same identifier contribute only yearly data. -/
theorem claim_c8_first_quadruple :
    ∀ (ds : RawDataSets) (i : ℕ) (g : Goal) (q : Quad),
      look i (normalizeRaw ds) = some g →
      (quadruples ds).find? (fun qq => qq.2.2.2.id == i) = some q →
      g.diretriz = q.2.1 ∧ g.objetivo = q.2.2.1 ∧
      g.title = q.2.2.2.title ∧ g.polaridade = q.2.2.2.polaridade := by
  intro ds i g q hlook hfind
  rw [normalizeRaw, look_map_val] at hlook
  cases hbm : look i (buildMaster ds) with
  | none =>
    rw [hbm] at hlook
    cases hlook
  | some g0 =>
    rw [hbm] at hlook
    have hg : g = add2025 g0 := by
      injection hlook with h2
      exact h2.symm
    rw [buildMaster] at hbm
    obtain ⟨g1, hg1, hc0⟩ := pass2_core (quadruples ds) _ i g0 hbm
    have hfirst := pass1_first (quadruples ds) [] i rfl
    rw [hg1, hfind] at hfirst
    have hg1q : g1 = mkG q := by
      injection hfirst with h3
    obtain ⟨_, tb, tc, td, te⟩ := hc0
    obtain ⟨_, sb, sc, sd, se⟩ := add2025_core g0
    subst hg
    subst hg1q
    refine ⟨?_, ?_, ?_, ?_⟩
    · exact sd.trans td
    · exact se.trans te
    · exact sb.trans tb
    · exact sc.trans tc

/-- C4 amended: every goal lacking a 2025 record gets a synthesized 2025
record whose annual result is "S/N" and whose sub-period results for "1",
"2", "3" are "S/N"; its expected value copies the 2024 expected value when
that value is truthy, and is "N/A" when the 2024 record is absent or its
expected value is falsy (undefined, null, the empty string or 0). -/
theorem claim_c4_amended :
    ∀ (ds : RawDataSets) (i : ℕ) (g : Goal),
      look i (buildMaster ds) = some g →
      look "2025" g.yearly_data = none →
      look i (normalizeRaw ds) = some (add2025 g) ∧
      look "2025" (add2025 g).yearly_data = some (synth2025 g) ∧
      (synth2025 g).resultado = JSVal.str "S/N" ∧
      (synth2025 g).quadrimestres =
        [("1", JSVal.str "S/N"), ("2", JSVal.str "S/N"), ("3", JSVal.str "S/N")] ∧
      (∀ yd : YearRec, look "2024" g.yearly_data = some yd → jsTruthy yd.esperado = true →
        (synth2025 g).esperado = yd.esperado) ∧
      (∀ yd : YearRec, look "2024" g.yearly_data = some yd → jsTruthy yd.esperado = false →
        (synth2025 g).esperado = JSVal.str "N/A") ∧
      (look "2024" g.yearly_data = none → (synth2025 g).esperado = JSVal.str "N/A") := by
  intro ds i g hbm h25
  refine ⟨?_, ?_, rfl, rfl, ?_, ?_, ?_⟩
  · rw [normalizeRaw, look_map_val, hbm]
    rfl
  · simp only [add2025, h25]
    exact look_aset_self "2025" (synth2025 g) g.yearly_data
  · intro yd h24 htr
    simp only [synth2025, h24]
    rw [if_pos htr]
  · intro yd h24 hfa
    simp only [synth2025, h24]
    rw [if_neg (by simp [hfa])]
  · intro h24
    simp only [synth2025, h24]
    rfl

/-- C4 counterexample: in `dsZero` the goal's 2024 expected value is present
(the number 0), yet the synthesized 2025 expected value is "N/A", not the
2024 value — refuting the claim that the 2025 expected equals the 2024
expected whenever the latter is not absent. -/
theorem claim_c4_counterexample :
    ((look 1 (normalizeRaw dsZero)).bind (fun g => look "2025" g.yearly_data)).map
        YearRec.esperado = some (JSVal.str "N/A") ∧
    ((look 1 (normalizeRaw dsZero)).bind (fun g => look "2024" g.yearly_data)).map
        YearRec.esperado = some (JSVal.num 0) ∧
    JSVal.str "N/A" ≠ JSVal.num 0 := by
  with_unfolding_all decide

/-- C4 witness: the amended synthesis theorem applied to the concrete
dataset `dsZero` at identifier 1. -/
theorem claim_c4_witness :
    look 1 (normalizeRaw dsZero) = some (add2025 gZero24) ∧
    look "2025" (add2025 gZero24).yearly_data = some (synth2025 gZero24) ∧
    (synth2025 gZero24).esperado = JSVal.str "N/A" := by
  have h := claim_c4_amended dsZero 1 gZero24 (by with_unfolding_all decide) (by decide)
  refine ⟨h.1, h.2.1, ?_⟩
  exact h.2.2.2.2.2.1 recZero24 (by decide) (by with_unfolding_all decide)

/-- C8 witness: the first-quadruple theorem applied to `dsDup7`, where id 7
appears under D1/O1 first and D2/O2 later: the normalized goal keeps
D1/O1/T1/maior. -/
theorem claim_c8_witness :
    gDup7.diretriz = "D1" ∧ gDup7.objetivo = "O1" ∧
    gDup7.title = "T1" ∧ gDup7.polaridade = "maior" := by
  have h := claim_c8_first_quadruple dsDup7 7 gDup7 quadFirst7
    (by with_unfolding_all decide) (by with_unfolding_all decide)
  exact h

end PanelRag
